import Mathlib

/-!
Verification of the veles snapshotter subsystem (`veles/snapshotter.py`)
against its natural-language specification.

The Python code is shallowly embedded: the scheduler state machine
(`SnapshotterBase.run`), the distributed acknowledgement gate
(`_slave_ended` / `drop_slave`), the streaming snappy adapter
(`SnappyFile`), the export naming and alias swap (`Snapshotter.export`)
and the importer (`Snapshotter.import_`) become executable Lean
functions over explicit state. Definitions come first, theorems follow.
-/

namespace Veles

/-- Scheduler state of `SnapshotterBase`: the `_skipped_counter` attribute and
the `time` attribute (wall-clock time of the last export), with timestamps
modelled as integers. -/
structure SchedState where
  skippedCounter : Nat
  time : Int
deriving DecidableEq, Repr

/-- One invocation of `SnapshotterBase.run`: the current wall clock `now`,
the value of the `skip` flag, `is_slave`, and
`root.common.disable_snapshotting`. -/
structure Tick where
  now : Int
  skip : Bool
  isSlave : Bool
  disabled : Bool
deriving DecidableEq, Repr

/-- Embedding of `SnapshotterBase.run` (snapshotter.py lines 104-116).
Returns the updated scheduler state and whether `export()` was invoked.
Mirrors the source exactly: early return for slaves / disabled; increment
`_skipped_counter`; return if it is below `interval` or `skip` is set;
otherwise reset the counter to 0 *before* the wall-clock check; drop the
tick if the elapsed time is below `time_interval`; else export and record
the fire time. -/
def run (interval : Nat) (timeInterval : Int) (s : SchedState) (t : Tick) :
    SchedState × Bool :=
  if t.isSlave || t.disabled then (s, false)
  else
    let c := s.skippedCounter + 1
    if c < interval ∨ t.skip = true then (⟨c, s.time⟩, false)
    else
      if t.now - s.time < timeInterval then (⟨0, s.time⟩, false)
      else (⟨0, t.now⟩, true)

/-- Checker for claim C1 as stated: walks a tick sequence, keeping the ghost
count of ticks actually delivered since the last genuine fire (`ghost`) and
the wall-clock time of the last genuine fire (`lastFire`); on every
effective tick it demands that the code fires exactly when
`ghost + 1 ≥ interval ∧ now - lastFire ≥ timeInterval ∧ ¬skip`, and that a
non-firing tick leaves the code's counter equal to the ghost count. -/
def c1ClaimCheck (interval : Nat) (tI : Int) :
    SchedState → Nat → Int → List Tick → Bool
  | _, _, _, [] => true
  | s, ghost, lastFire, t :: ts =>
    let r := run interval tI s t
    if t.isSlave || t.disabled then
      c1ClaimCheck interval tI r.1 ghost lastFire ts
    else
      let g2 := ghost + 1
      let shouldFire :=
        decide (interval ≤ g2) && decide (tI ≤ t.now - lastFire) && !t.skip
      ((r.2 == shouldFire) && (r.2 || (r.1.skippedCounter == g2))) &&
        c1ClaimCheck interval tI r.1 (if r.2 then 0 else g2)
          (if r.2 then t.now else lastFire) ts

/-- Combined state of a `SnapshotterBase` on the master side: the scheduler
state, the `slaves` dict (modelled by its key set, since values are always
the constant 1), and the unit's `gate_skip` / `gate_block` flags. -/
structure GateState where
  sched : SchedState
  slaves : Finset Nat
  gate_skip : Bool
  gate_block : Bool
deriving DecidableEq

/-- Embedding of `SnapshotterBase.generate_data_for_slave` (snapshotter.py
lines 123-124): `self.slaves[slave.id] = 1`. -/
def generateDataForSlave (st : GateState) (id : Nat) : GateState :=
  ⟨st.sched, insert id st.slaves, st.gate_skip, st.gate_block⟩

/-- Embedding of `SnapshotterBase._slave_ended` (snapshotter.py lines
135-142) for a non-None slave with identifier `id`, at wall clock and flag
context `t`. Returns the new state, whether `self.run()` was invoked, and
whether that invocation actually exported. If the id is not a pending key,
nothing happens; otherwise the key is deleted, and if the remaining set is
empty and neither `gate_skip` nor `gate_block` is set, `run` is invoked. -/
def slaveEnded (interval : Nat) (tI : Int) (t : Tick) (st : GateState)
    (id : Nat) : GateState × Bool × Bool :=
  if id ∈ st.slaves then
    let slaves2 := st.slaves.erase id
    if slaves2 = ∅ ∧ st.gate_skip = false ∧ st.gate_block = false then
      let r := run interval tI st.sched t
      (⟨r.1, slaves2, st.gate_skip, st.gate_block⟩, true, r.2)
    else (⟨st.sched, slaves2, st.gate_skip, st.gate_block⟩, false, false)
  else (st, false, false)

/-- Embedding of `SnapshotterBase.drop_slave` (snapshotter.py lines
144-146): call `_slave_ended` only when the id is a pending key. -/
def dropSlave (interval : Nat) (tI : Int) (t : Tick) (st : GateState)
    (id : Nat) : GateState × Bool × Bool :=
  if id ∈ st.slaves then slaveEnded interval tI t st id
  else (st, false, false)

/-- Python bytearray slice assignment `buf[a:b] = src`: the (clamped) slice
is replaced by `src`, resizing the bytearray when the lengths differ. -/
def sliceAssign (buf : List Nat) (a b : Nat) (src : List Nat) : List Nat :=
  let n := buf.length
  let a2 := min a n
  let b2 := min (max a2 b) n
  buf.take a2 ++ src ++ buf.drop b2

/-- State of a `SnappyFile` opened in "wb" mode (snapshotter.py lines
149-161): the bytearray `buffer`, the write position `buffer_pos`, and the
underlying file's contents. The snappy `StreamCompressor` is modelled
abstractly by recording, in order, the bytes handed to
`compress` (`fileOut`), since stream decompression of the concatenated
frames returns exactly the concatenation of the inputs to `compress`. -/
structure SnappyFileW where
  buffer : List Nat
  buffer_pos : Nat
  fileOut : List Nat
deriving DecidableEq, Repr

/-- Constructor `SnappyFile.__init__` with the given `buffer_size`
(`snappy._CHUNK_MAX` in the source): `bytearray(buffer_size)` is a zero
buffer, `buffer_pos = 0`, empty file. -/
def SnappyFileW.init (buffer_size : Nat) : SnappyFileW :=
  ⟨List.replicate buffer_size 0, 0, []⟩

/-- The two statements after the while loop of `SnappyFile.write`
(snapshotter.py lines 185-186): `self.buffer_pos += len(data)` followed by
`self.buffer[self.buffer_pos - len(data):self.buffer_pos] = data`. -/
def tailAppend (s : SnappyFileW) (data : List Nat) : SnappyFileW :=
  let newPos := s.buffer_pos + data.length
  ⟨sliceAssign s.buffer (newPos - data.length) newPos data, newPos, s.fileOut⟩

/-- The while loop of `SnappyFile.write` (snapshotter.py lines 175-184),
with explicit fuel (any fuel above `data.length + 2` is enough, as every
iteration but the last consumes part of `data`). The fast path compresses
the whole-chunk prefix of `data` and then breaks out of the loop — without
discarding that prefix from `data`, exactly as the source does. -/
def writeLoop : Nat → SnappyFileW → List Nat → SnappyFileW
  | 0, s, data => tailAppend s data
  | fuel + 1, s, data =>
    if s.buffer_pos + data.length > s.buffer.length then
      if s.buffer_pos == 0 && data.length > s.buffer.length then
        let size := (data.length / s.buffer.length) * s.buffer.length
        tailAppend ⟨s.buffer, s.buffer_pos, s.fileOut ++ data.take size⟩ data
      else
        let remainder := s.buffer.length - s.buffer_pos
        let buf2 := sliceAssign s.buffer s.buffer_pos s.buffer.length
          (data.take remainder)
        writeLoop fuel ⟨buf2, 0, s.fileOut ++ buf2⟩ (data.drop remainder)
    else tailAppend s data

/-- Embedding of `SnappyFile.write` (snapshotter.py lines 174-186). -/
def SnappyFileW.write (s : SnappyFileW) (data : List Nat) : SnappyFileW :=
  writeLoop (data.length + 2) s data

/-- Embedding of `SnappyFile.flush` (snapshotter.py lines 191-199): if the
buffer holds residual bytes, compress `buffer[:buffer_pos]` and emit it; the
final `StreamCompressor.flush` adds no payload bytes. -/
def SnappyFileW.flush (s : SnappyFileW) : SnappyFileW :=
  if s.buffer_pos > 0 then
    ⟨s.buffer, 0, s.fileOut ++ s.buffer.take s.buffer_pos⟩
  else s

/-- Reading the produced file back through `SnappyFile.read` until
exhaustion decompresses every frame in order, i.e. returns the
concatenation of all inputs that were handed to `compress`. -/
def readBack (s : SnappyFileW) : List Nat := s.fileOut

/-- Write a sequence of payloads through a fresh adapter of the given
capacity, then flush, then read the result back. -/
def snappyRoundTrip (cap : Nat) (writes : List (List Nat)) : List Nat :=
  readBack (SnappyFileW.flush (writes.foldl SnappyFileW.write
    (SnappyFileW.init cap)))

/-- The whitespace characters removed by Python's `str.strip()` for ASCII
input: space, tab, newline, carriage return, vertical tab, form feed. -/
def isPySpace (c : Char) : Bool :=
  c = ' ' || c = '\t' || c = '\n' || c = '\r' ||
    c = Char.ofNat 11 || c = Char.ofNat 12

/-- Python `str.strip()` on a character list: drop leading whitespace, then
drop trailing whitespace. -/
def stripChars (l : List Char) : List Char :=
  ((l.dropWhile isPySpace).reverse.dropWhile isPySpace).reverse

/-- The `file_name.strip()` call performed by the first line of
`Snapshotter.import_` (snapshotter.py line 275). -/
def pyStrip (s : String) : String := ⟨stripChars s.data⟩

/-- The basename of a POSIX path: the part after the last `/`. -/
def basenameChars (l : List Char) : List Char :=
  (l.reverse.takeWhile (fun c => c != '/')).reverse

/-- The extension of `os.path.splitext`, on character lists: within the
basename, ignore leading dots; if a dot remains, the extension runs from the
last dot to the end, otherwise it is empty. -/
def splitextExtChars (l : List Char) : List Char :=
  let b := basenameChars l
  let core := b.dropWhile (fun c => c == '.')
  if core.contains '.' then
    '.' :: (core.reverse.takeWhile (fun c => c != '.')).reverse
  else []

/-- The expression `os.path.splitext(file_name)[1]` as used by
`Snapshotter.import_` (snapshotter.py line 278). -/
def splitextExt (s : String) : String := ⟨splitextExtChars s.data⟩

/-- Reader constructors of the `Snapshotter.READ_CODECS` table
(snapshotter.py lines 239-245), as tags. -/
inductive ReadCodec where
  | rawOpen
  | snappyReader
  | gzipReader
  | bz2Reader
  | lzmaReader
deriving DecidableEq, Repr

/-- The `READ_CODECS` dict: an association from extension key to reader
constructor, with the keys exactly as written in the source — note that the
snappy entry is keyed `"snappy"` without a leading dot. -/
def READ_CODECS : List (String × ReadCodec) :=
  [(".pickle", ReadCodec.rawOpen), ("snappy", ReadCodec.snappyReader),
   (".gz", ReadCodec.gzipReader), (".bz2", ReadCodec.bz2Reader),
   (".xz", ReadCodec.lzmaReader)]

/-- The exceptions `Snapshotter.import_` can raise before any stream is
opened: `FileNotFoundError(file_name)` when the path does not exist, and the
`KeyError` of the `READ_CODECS[ext]` lookup when the extension is not a
registry key. -/
inductive ImpError where
  | fileNotFound (path : String)
  | keyError (ext : String)
deriving DecidableEq, Repr

deriving instance DecidableEq for Except

/-- Embedding of `Snapshotter.import_` (snapshotter.py lines 273-287) up to
the construction of the reader. The filesystem is the list `present` of
existing paths. The second component lists the paths on which a reader
stream was actually opened (empty on both error paths, witnessing the
absence of partial side effects). -/
def importSnapshot (present : List String) (file_name : String) :
    Except ImpError ReadCodec × List String :=
  let f := pyStrip file_name
  if f ∈ present then
    let ext := splitextExt f
    match READ_CODECS.lookup ext with
    | some c => (Except.ok c, [f])
    | none => (Except.error (ImpError.keyError ext), [])
  else (Except.error (ImpError.fileNotFound f), [])

/-- The extension appended by `Snapshotter.export` (snapshotter.py line
248): `("." + self.compression) if self.compression else ""`, with Python
truthiness making both `None` and `""` produce the empty extension. -/
def snapshotExt (compression : Option String) : String :=
  match compression with
  | none => ""
  | some c => if c = "" then "" else "." ++ c

/-- The versioned artifact name `"%s_%s.%d.pickle%s" % (prefix, suffix,
best_protocol, ext)` of `Snapshotter.export` (snapshotter.py lines
249-250). -/
def relFileName (pref suff : String) (proto : Nat)
    (compression : Option String) : String :=
  pref ++ "_" ++ suff ++ "." ++ toString proto ++ ".pickle" ++
    snapshotExt compression

/-- The alias name `"%s_current.%d.pickle%s" % (prefix, best_protocol,
ext)` of `Snapshotter.export` (snapshotter.py lines 255-257). -/
def currentLinkName (pref : String) (proto : Nat)
    (compression : Option String) : String :=
  pref ++ "_current." ++ toString proto ++ ".pickle" ++
    snapshotExt compression

/-- The extension as the spec words it: the empty string for the
uncompressed codec (`None` or `""`), and `"."` followed by the codec id
otherwise. -/
def snapshotExtSpec (compression : Option String) : String :=
  if compression = none ∨ compression = some "" then ""
  else "." ++ compression.getD ""

/-- The versioned artifact name as the spec words it. -/
def relFileNameSpec (pref suff : String) (proto : Nat)
    (compression : Option String) : String :=
  pref ++ "_" ++ suff ++ "." ++ toString proto ++ ".pickle" ++
    snapshotExtSpec compression

/-- The alias name as the spec words it. -/
def currentLinkNameSpec (pref : String) (proto : Nat)
    (compression : Option String) : String :=
  pref ++ "_current." ++ toString proto ++ ".pickle" ++
    snapshotExtSpec compression

/-- Embedding of the tail of `Snapshotter.export` (snapshotter.py lines
253-267). `writeErr` is the outcome of the `pickle.dump` into the codec
stream (`some e` = the write raised `e`); `removeRaises` / `symlinkRaises`
say whether `os.remove` / `os.symlink` on the alias raise `OSError` (both
are swallowed by the source's try/except blocks). The result is the
exception propagated out of `export` (if any) and the alias after the
attempt (`none` = no alias present). -/
def exportModel (writeErr : Option String) (removeRaises symlinkRaises : Bool)
    (prevAlias : Option String) (newFile : String) :
    Option String × Option String :=
  match writeErr with
  | some e => (some e, prevAlias)
  | none =>
    let a1 := if removeRaises then prevAlias else none
    let a2 := if symlinkRaises then a1 else some newFile
    (none, a2)

/-- C1 (counterexample): with `interval = 2`, `time_interval = 10`, starting
from a fresh state at time 0, the tick sequence at times 1, 2, 20 violates
the claim: on the second tick the counter reaches the interval, the time
gate fails, and the code resets the counter to 0 without firing, so the
counter no longer counts the ticks since the last actual fire; on the third
tick both claimed conditions hold yet the code does not fire. -/
theorem c1_counterexample :
    c1ClaimCheck 2 10 ⟨0, 0⟩ 0 0
      [⟨1, false, false, false⟩, ⟨2, false, false, false⟩,
       ⟨20, false, false, false⟩] = false := by decide

/-- C1 (amended): closed-form characterisation of `run`. An export fires iff
the tick is effective (not slave, not disabled), the incremented skipped
counter reaches `interval`, `skip` is false, and the elapsed time since the
recorded last-fire time is at least `timeInterval`; a fire resets the counter
and the time; on a non-firing effective tick the counter is incremented
unless it had reached `interval` with `skip` clear, in which case it is reset
to 0 even though no export happened (so the counter counts ticks since the
last reset, not since the last fire). -/
theorem c1_amended_run (interval : Nat) (tI : Int) (s : SchedState) (t : Tick) :
    run interval tI s t =
      (if (!t.isSlave && !t.disabled && decide (interval ≤ s.skippedCounter + 1)
            && !t.skip && decide (tI ≤ t.now - s.time)) = true
       then ⟨0, t.now⟩
       else ⟨(if t.isSlave || t.disabled then s.skippedCounter
              else if s.skippedCounter + 1 < interval ∨ t.skip = true then
                s.skippedCounter + 1
              else 0),
             s.time⟩,
       !t.isSlave && !t.disabled && decide (interval ≤ s.skippedCounter + 1)
         && !t.skip && decide (tI ≤ t.now - s.time)) := by
  obtain ⟨now, skip, isSlave, disabled⟩ := t
  obtain ⟨c, time⟩ := s
  cases isSlave <;> cases disabled <;> cases skip <;>
    simp only [run, Bool.not_false, Bool.not_true, Bool.false_and, Bool.and_false,
      Bool.true_and, Bool.and_true, Bool.or_false, Bool.false_or, Bool.or_true,
      Bool.true_or] <;>
    split_ifs <;> simp_all <;> omega

/-- C4: with the gate flags clear, removing a pending worker that does not
empty the pending set changes only the set and does not invoke the deferred
fire; removing the worker that empties the set invokes the deferred fire
(exactly once: a second delivery of the same completion is a no-op that
changes no state and fires nothing), a completion for an id not in the
pending set is a no-op, and `drop_slave` behaves exactly like a completion
notification. -/
theorem c4_gate (interval : Nat) (tI : Int) (t : Tick) (st : GateState)
    (id : Nat) (hgs : st.gate_skip = false) (hgb : st.gate_block = false) :
    (id ∉ st.slaves → slaveEnded interval tI t st id = (st, false, false)) ∧
    (id ∈ st.slaves → st.slaves.erase id ≠ ∅ →
      slaveEnded interval tI t st id =
        (⟨st.sched, st.slaves.erase id, st.gate_skip, st.gate_block⟩,
         false, false)) ∧
    (id ∈ st.slaves → st.slaves.erase id = ∅ →
      (slaveEnded interval tI t st id).2.1 = true ∧
      slaveEnded interval tI t (slaveEnded interval tI t st id).1 id =
        ((slaveEnded interval tI t st id).1, false, false)) ∧
    dropSlave interval tI t st id = slaveEnded interval tI t st id := by
  refine ⟨fun hid => by simp [slaveEnded, hid], fun hid hne => ?_,
    fun hid hemp => ?_, ?_⟩
  · simp [slaveEnded, hid, hne, hgs, hgb]
  · have heq : slaveEnded interval tI t st id =
        (⟨(run interval tI st.sched t).1, st.slaves.erase id, st.gate_skip,
          st.gate_block⟩, true, (run interval tI st.sched t).2) := by
      simp [slaveEnded, hid, hemp, hgs, hgb]
    rw [heq]
    exact ⟨rfl, by simp [slaveEnded, Finset.not_mem_erase]⟩
  · by_cases hid : id ∈ st.slaves
    · simp [dropSlave, hid]
    · simp [dropSlave, slaveEnded, hid]

/-- C4 witness: with workers {1, 2, 3} assigned and the gate flags clear,
completing worker 1 only shrinks the set and does not invoke the deferred
fire; completing the last worker of {3} invokes it; a duplicate delivery of
that last completion is a no-op. -/
theorem c4_gate_witness :
    slaveEnded 1 0 ⟨0, false, false, false⟩ ⟨⟨0, 0⟩, {1, 2, 3}, false, false⟩ 1 =
      (⟨⟨0, 0⟩, ({1, 2, 3} : Finset Nat).erase 1, false, false⟩, false, false) ∧
    (slaveEnded 1 0 ⟨0, false, false, false⟩ ⟨⟨0, 0⟩, {3}, false, false⟩ 3).2.1
      = true ∧
    slaveEnded 1 0 ⟨0, false, false, false⟩
      (slaveEnded 1 0 ⟨0, false, false, false⟩ ⟨⟨0, 0⟩, {3}, false, false⟩ 3).1 3 =
      ((slaveEnded 1 0 ⟨0, false, false, false⟩ ⟨⟨0, 0⟩, {3}, false, false⟩ 3).1,
       false, false) :=
  ⟨(c4_gate 1 0 ⟨0, false, false, false⟩ ⟨⟨0, 0⟩, {1, 2, 3}, false, false⟩ 1
      rfl rfl).2.1 (by decide) (by decide),
   ((c4_gate 1 0 ⟨0, false, false, false⟩ ⟨⟨0, 0⟩, {3}, false, false⟩ 3
      rfl rfl).2.2.1 (by decide) (by decide)).1,
   ((c4_gate 1 0 ⟨0, false, false, false⟩ ⟨⟨0, 0⟩, {3}, false, false⟩ 3
      rfl rfl).2.2.1 (by decide) (by decide)).2⟩

/-- C10: when the gate flags are clear and removing `id` empties the pending
set, `_slave_ended` invokes the ordinary tick entry point `run` — the
scheduler state evolves exactly as if a tick had been delivered (so the
skipped counter is incremented and all policy gates apply) and an export
happens exactly when `run` fires; emptying the set therefore does not by
itself guarantee an export. -/
theorem c10_deferred_run (interval : Nat) (tI : Int) (t : Tick)
    (st : GateState) (id : Nat) (hgs : st.gate_skip = false)
    (hgb : st.gate_block = false) (hid : id ∈ st.slaves)
    (hemp : st.slaves.erase id = ∅) :
    slaveEnded interval tI t st id =
      (⟨(run interval tI st.sched t).1, ∅, st.gate_skip, st.gate_block⟩,
       true, (run interval tI st.sched t).2) := by
  simp [slaveEnded, hid, hemp, hgs, hgb]

/-- C10 witness: with `interval = 5` and a fresh counter, completing the
only pending worker 7 invokes `run`, yet `run` does not export (the counter
reaches only 1 < 5), so emptying the pending set produced no snapshot. -/
theorem c10_deferred_run_witness :
    slaveEnded 5 0 ⟨9, false, false, false⟩ ⟨⟨0, 0⟩, {7}, false, false⟩ 7 =
      (⟨(run 5 0 ⟨0, 0⟩ ⟨9, false, false, false⟩).1, ∅, false, false⟩,
       true, (run 5 0 ⟨0, 0⟩ ⟨9, false, false, false⟩).2) ∧
    (run 5 0 ⟨0, 0⟩ ⟨9, false, false, false⟩).2 = false :=
  ⟨c10_deferred_run 5 0 ⟨9, false, false, false⟩ ⟨⟨0, 0⟩, {7}, false, false⟩ 7
    rfl rfl (by decide) (by decide), by decide⟩

/-- C2 (code bug, evaluated at the failing input): with chunk capacity 2, a
single write of the 7-byte payload `[1,...,7]` (3.5 chunks) followed by
flush produces a stream that reads back as the first three chunks followed
by the whole payload again — the fast path of `SnappyFile.write` breaks out
of the loop without discarding the chunks it already compressed, so they
are re-emitted at flush and the round-trip property fails. -/
theorem c2_roundtrip_bug_eval :
    snappyRoundTrip 2 [[1, 2, 3, 4, 5, 6, 7]] =
      [1, 2, 3, 4, 5, 6, 1, 2, 3, 4, 5, 6, 7] ∧
    snappyRoundTrip 2 [[1, 2, 3, 4, 5, 6, 7]] ≠ [1, 2, 3, 4, 5, 6, 7] := by
  decide

/-- C3 (code bug, evaluated at the failing input): after the same 7-byte
write on a capacity-2 adapter, `buffer_pos = 7` exceeds the initial
capacity 2, and the bytearray itself has been grown to length 7 by the
out-of-range slice assignment — the `writePos ≤ capacity` invariant fails. -/
theorem c3_overflow_bug_eval :
    ((SnappyFileW.init 2).write [1, 2, 3, 4, 5, 6, 7]).buffer_pos = 7 ∧
    ((SnappyFileW.init 2).write [1, 2, 3, 4, 5, 6, 7]).buffer.length = 7 ∧
    ¬ ((SnappyFileW.init 2).write [1, 2, 3, 4, 5, 6, 7]).buffer_pos ≤
        (SnappyFileW.init 2).buffer.length := by decide

/-- Dropping with the same predicate twice is the same as dropping once. -/
theorem dropWhile_isPySpace_idem (p : Char → Bool) (l : List Char) :
    (l.dropWhile p).dropWhile p = l.dropWhile p := by
  induction l with
  | nil => rfl
  | cons a l ih =>
    by_cases h : p a
    · simp [List.dropWhile_cons, h, ih]
    · simp [List.dropWhile_cons, h]

/-- The head of `dropWhile p l`, when present, fails `p`. -/
theorem head_dropWhile_false (p : Char → Bool) (l : List Char) :
    ∀ a, (l.dropWhile p).head? = some a → p a = false := by
  induction l with
  | nil => intro a h; simp at h
  | cons b l ih =>
    intro a h
    by_cases hb : p b
    · exact ih a (by simpa [List.dropWhile_cons, hb] using h)
    · rw [List.dropWhile_cons, if_neg hb] at h
      simp at h
      subst h
      exact Bool.eq_false_iff.mpr hb

/-- A list whose head fails `p` is unchanged by `dropWhile p`. -/
theorem dropWhile_eq_self_of_head (p : Char → Bool) (l : List Char)
    (h : ∀ a, l.head? = some a → p a = false) : l.dropWhile p = l := by
  cases l with
  | nil => rfl
  | cons a l => simp [List.dropWhile_cons, h a rfl]

/-- The last element survives `dropWhile`, when the result is nonempty. -/
theorem getLast?_dropWhile (p : Char → Bool) (l : List Char) :
    l.dropWhile p = [] ∨ (l.dropWhile p).getLast? = l.getLast? := by
  induction l with
  | nil => exact Or.inl rfl
  | cons a l ih =>
    by_cases h : p a
    · rw [List.dropWhile_cons, if_pos h]
      rcases ih with h1 | h1
      · exact Or.inl h1
      · cases l with
        | nil => exact Or.inl rfl
        | cons b l2 =>
          right
          rw [h1]
          simp [List.getLast?_cons_cons]
    · rw [List.dropWhile_cons, if_neg h]
      exact Or.inr rfl

/-- Stripping is idempotent on character lists. -/
theorem stripChars_idem (l : List Char) :
    stripChars (stripChars l) = stripChars l := by
  simp only [stripChars]
  set A := l.dropWhile isPySpace with hA
  set B := A.reverse.dropWhile isPySpace with hB
  have hBB : B.dropWhile isPySpace = B := dropWhile_isPySpace_idem _ _
  have hhead : ∀ a, B.reverse.head? = some a → isPySpace a = false := by
    intro a ha
    rw [List.head?_reverse] at ha
    rcases getLast?_dropWhile isPySpace A.reverse with h1 | h1
    · rw [← hB] at h1
      rw [h1] at ha
      simp at ha
    · rw [← hB] at h1
      rw [h1, List.getLast?_reverse] at ha
      exact head_dropWhile_false isPySpace l a ha
  have h1 : B.reverse.dropWhile isPySpace = B.reverse :=
    dropWhile_eq_self_of_head _ _ hhead
  rw [h1, List.reverse_reverse, hBB]

/-- Stripping a string is idempotent. -/
theorem pyStrip_idem (s : String) : pyStrip (pyStrip s) = pyStrip s := by
  simp only [pyStrip]
  exact congrArg String.mk (stripChars_idem s.data)

/-- C9: `import_` strips the path before the existence check, the extension
lookup and the open, so importing any path behaves identically to importing
the whitespace-stripped path (and hence two paths differing only in
surrounding whitespace behave identically). -/
theorem c9_strip_before_lookup (present : List String) (file_name : String) :
    importSnapshot present file_name =
      importSnapshot present (pyStrip file_name) := by
  unfold importSnapshot
  rw [pyStrip_idem]

/-- C5: importing a path that (after stripping) does not exist fails with
the FileNotFound-class error, and importing an existing path whose
extension has no entry in `READ_CODECS` fails with the lookup's KeyError —
in both cases before any stream is opened (the opened-stream list is empty)
and with the two error classes distinct from each other. -/
theorem c5_import_errors (present : List String) (file_name : String) :
    (pyStrip file_name ∉ present →
      importSnapshot present file_name =
        (Except.error (ImpError.fileNotFound (pyStrip file_name)), [])) ∧
    (pyStrip file_name ∈ present →
      READ_CODECS.lookup (splitextExt (pyStrip file_name)) = none →
      importSnapshot present file_name =
        (Except.error (ImpError.keyError (splitextExt (pyStrip file_name))),
         [])) ∧
    (∀ p e, ImpError.fileNotFound p ≠ ImpError.keyError e) := by
  refine ⟨fun h => by simp [importSnapshot, h],
    fun h1 h2 => by simp [importSnapshot, h1, h2],
    fun p e => by simp⟩

/-- C5 witness: importing `" b.4.pickle "` when only `"a.4.pickle"` exists
fails with FileNotFound on the stripped name, and importing the existing
`"c.4.pickle.zip"` fails with the KeyError for `".zip"`. -/
theorem c5_import_errors_witness :
    importSnapshot ["a.4.pickle"] " b.4.pickle " =
      (Except.error (ImpError.fileNotFound (pyStrip " b.4.pickle ")), []) ∧
    importSnapshot ["c.4.pickle.zip"] "c.4.pickle.zip" =
      (Except.error
        (ImpError.keyError (splitextExt (pyStrip "c.4.pickle.zip"))), []) :=
  ⟨(c5_import_errors ["a.4.pickle"] " b.4.pickle ").1 (by decide),
   (c5_import_errors ["c.4.pickle.zip"] "c.4.pickle.zip").2.1 (by decide)
     (by decide)⟩

/-- C6 (code bug, evaluated at the failing input): export with the snappy
codec names the alias `wf_current.4.pickle.snappy`, whose `splitext`
extension is `".snappy"`; but `READ_CODECS` is keyed by `"snappy"` without
the dot, so the lookup finds nothing and `import_` on that existing file
raises the KeyError instead of constructing the streaming reader. -/
theorem c6_snappy_import_eval :
    currentLinkName "wf" 4 (some "snappy") = "wf_current.4.pickle.snappy" ∧
    splitextExt "wf_current.4.pickle.snappy" = ".snappy" ∧
    READ_CODECS.lookup ".snappy" = none ∧
    ("snappy", ReadCodec.snappyReader) ∈ READ_CODECS ∧
    importSnapshot ["wf_current.4.pickle.snappy"]
        "wf_current.4.pickle.snappy" =
      (Except.error (ImpError.keyError ".snappy"), []) := by decide

/-- C8: export names the versioned artifact and the alias exactly as the
spec words it — `<prefix>_<suffix>.<protocol>.pickle<ext>` and
`<prefix>_current.<protocol>.pickle<ext>` with `<ext>` empty for the
uncompressed codec (None or the empty id) and `"." ++ id` otherwise — and
in particular with gz compression, prefix `run`, suffix `epoch1`, protocol
4, the file is `run_epoch1.4.pickle.gz` and the alias is
`run_current.4.pickle.gz`. -/
theorem c8_naming (pref suff : String) (proto : Nat)
    (compression : Option String) :
    relFileName pref suff proto compression =
      relFileNameSpec pref suff proto compression ∧
    currentLinkName pref proto compression =
      currentLinkNameSpec pref proto compression ∧
    relFileName "run" "epoch1" 4 (some "gz") = "run_epoch1.4.pickle.gz" ∧
    currentLinkName "run" 4 (some "gz") = "run_current.4.pickle.gz" := by
  have hext : snapshotExt compression = snapshotExtSpec compression := by
    rcases compression with _ | c
    · rfl
    · by_cases hc : c = "" <;> simp [snapshotExt, snapshotExtSpec, hc]
  exact ⟨by simp [relFileName, relFileNameSpec, hext],
    by simp [currentLinkName, currentLinkNameSpec, hext],
    by decide, by decide⟩

/-- C7 (counterexample): when the payload write succeeds, `os.remove` of
the old alias succeeds, and `os.symlink` then fails (e.g. the disk filled
up in between), the absorbed failure leaves no alias at all — the resulting
alias is neither the previous alias `some "old"` nor the just-written
`some "new"`, refuting the claimed dichotomy. -/
theorem c7_counterexample :
    ¬ ((exportModel none false true (some "old") "new").2 = some "old" ∨
       (exportModel none false true (some "old") "new").2 = some "new") := by
  decide

/-- C7 (amended): the alias section never raises — the only exception
leaving `export` is the payload write's; a failed write leaves the alias
untouched; after a successful write the alias is the just-written file's,
or (when the symlink creation fails) absent or still the previous one; and
the alias never comes to point at the file of a failed write. -/
theorem c7_alias_amended (writeErr : Option String) (rR sR : Bool)
    (prev : Option String) (newFile : String) :
    (exportModel writeErr rR sR prev newFile).1 = writeErr ∧
    (writeErr ≠ none →
      exportModel writeErr rR sR prev newFile = (writeErr, prev)) ∧
    (writeErr = none →
      ((exportModel writeErr rR sR prev newFile).2 = some newFile ∨
       (exportModel writeErr rR sR prev newFile).2 = none ∨
       (exportModel writeErr rR sR prev newFile).2 = prev)) ∧
    (writeErr ≠ none → prev ≠ some newFile →
      (exportModel writeErr rR sR prev newFile).2 ≠ some newFile) := by
  rcases writeErr with _ | e
  · refine ⟨rfl, fun h => absurd rfl h, fun _ => ?_, fun h => absurd rfl h⟩
    cases rR <;> cases sR <;> simp [exportModel]
  · exact ⟨rfl, fun _ => rfl, fun h => by simp at h,
      fun _ hp => by simpa [exportModel] using hp⟩

/-- C7 amended witness: a failing write `"boom"` propagates and leaves the
previous alias `some "old"` in place, which in particular is not the alias
of the failed file `"new"`. -/
theorem c7_alias_amended_witness :
    exportModel (some "boom") true true (some "old") "new" =
      (some "boom", some "old") ∧
    (exportModel (some "boom") true true (some "old") "new").2 ≠
      some "new" :=
  ⟨(c7_alias_amended (some "boom") true true (some "old") "new").2.1
     (by decide),
   (c7_alias_amended (some "boom") true true (some "old") "new").2.2.2
     (by decide) (by decide)⟩

end Veles
